import Mathlib

/-
Verification of the `ai_assistant.py` command-line shell assistant.

This file gives a shallow embedding of the program in Lean 4 and proves or
refutes the specification claims about it.  The embedding follows the Python
source (`src/ai_assistant.py`) line by line:

  * YAML values are modelled by the inductive type `YVal` (string-keyed
    mappings, as produced by `yaml.safe_load` for this program's config).
  * Python truthiness, `dict.get`, attribute errors and the like are modelled
    explicitly (`pyTruthy`, `pyGet`, `PyExn`, ...).
  * I/O effects are modelled by an `Effects` record accumulating the lines
    written to stdout and stderr and the list of prompts sent to the provider
    API (one entry per `client.messages.create` call, so its length is the
    number of network attempts).
  * `print(s)` writes `s` followed by a newline; as terminal lines this is
    `emit s`, i.e. `s` split at embedded newline characters.
  * The external world an invocation can observe is a `ProgInput`: whether
    the config file exists, the result of parsing it, `sys.argv[1:]`, the
    outcome of the shell-history subprocess used by the manual `fix` path,
    and the outcome the provider API would give if it were called.

Two genuine defects of the source shape the development and are modelled
faithfully (both were reproduced against CPython 3.11 / argparse):

  1. `load_config` (line 24) calls `print_debug`, whose body reads the global
     `CONFIG`; but `CONFIG` is only assigned *from the result of*
     `load_config()` at line 165.  The read of the unbound global raises
     `NameError` on every invocation, the exception is not a `SystemExit` so
     the module-level `try` (lines 164-168) does not catch it, and the process
     dies with a traceback and exit status 1 before doing anything else.
     `print_debug` therefore takes `Option YVal`: `none` models the unbound
     global (raising `NameError`), `some cfg` models the bound global.

  2. The hidden subcommand is registered as `add_parser('--internal-fix-error')`
     (line 190).  argparse matches subcommand names as *positionals*, and a
     token beginning with `-` is lexed as an (unknown) optional, so this
     subparser can never be selected: any `--internal-fix-error ...` argv is
     rejected with a parse error (SystemExit(2)), which `main` swallows and
     turns into the "Invalid usage" message and `sys.exit(1)`.  Moreover the
     subparser's `--command` option shares `dest='command'` with the
     subparsers action, so even under a hypothetical parser that matched it,
     `args.command` would hold the *failed command string*, and the dispatch
     test `args.command == '--internal-fix-error'` (line 243) could not fire.
     The parse model below (`parse_args`) captures the reachable behaviour of
     this parser configuration; the dead subparser consequently has no
     constructor in `Parsed`.
-/

/-- A YAML value as loaded by `yaml.safe_load`, restricted to string-keyed
mappings (the shape of this program's `config.yaml`).  Floats are not needed
by any claim and are omitted; numeric leaves use `vint`. -/
inductive YVal where
  | vnull : YVal
  | vbool : Bool → YVal
  | vint : Int → YVal
  | vstr : String → YVal
  | vlist : List YVal → YVal
  | vmap : List (String × YVal) → YVal

/-- Python exceptions that the modelled code can raise. -/
inductive PyExn where
  | nameError : String → PyExn
  | attributeError : String → PyExn
  | typeError : String → PyExn
  | valueError : String → PyExn
deriving DecidableEq

/-- Python truthiness of a value (`if v:`). -/
def pyTruthy : YVal → Bool
  | .vnull => false
  | .vbool b => b
  | .vint n => n != 0
  | .vstr s => s ≠ ""
  | .vlist xs => !xs.isEmpty
  | .vmap m => !m.isEmpty

/-- Truthiness of the result of `dict.get(k)` (which is `None` when absent). -/
def optTruthy : Option YVal → Bool
  | none => false
  | some v => pyTruthy v

/-- First-match association lookup, the model of indexing a Python dict with
a string key. -/
def dictGet : List (String × YVal) → String → Option YVal
  | [], _ => none
  | (k, v) :: rest, key => if k = key then some v else dictGet rest key

/-- Model of `d.get(key, default)` on a dict known to be a dict. -/
def dictGetD (m : List (String × YVal)) (key : String) (default : YVal) : YVal :=
  (dictGet m key).getD default

/-- Model of `v.get(key)`: raises `AttributeError` unless `v` is a dict. -/
def pyGet (v : YVal) (key : String) : Except PyExn (Option YVal) :=
  match v with
  | .vmap m => .ok (dictGet m key)
  | _ => .error (.attributeError "get")

/-- Model of `v.get(keyVal, default-empty-dict)` where the key is itself a
Python value (line 34 uses `config.get(config['api_provider'], {})`).
Unhashable keys (lists, dicts) raise `TypeError`; hashable non-string keys
never match a string-keyed mapping and yield the default. -/
def pyGetKeyVal (v : YVal) (keyVal : YVal) : Except PyExn YVal :=
  match v with
  | .vmap m =>
    match keyVal with
    | .vstr p => .ok ((dictGet m p).getD (.vmap []))
    | .vlist _ => .error (.typeError "unhashable type")
    | .vmap _ => .error (.typeError "unhashable type")
    | _ => .ok (.vmap [])
  | _ => .error (.attributeError "get")

/-- Rendering of a value inside an f-string (`str(v)`), used only to build
message text. -/
def pyStr : YVal → String
  | .vnull => "None"
  | .vbool b => if b then "True" else "False"
  | .vint n => toString n
  | .vstr s => s
  | .vlist _ => "[list]"
  | .vmap _ => "[dict]"

/-- Rendering of an exception inside an f-string (`str(e)`). -/
def pyExnStr : PyExn → String
  | .nameError n => "name \x27" ++ n ++ "\x27 is not defined"
  | .attributeError a => "object has no attribute \x27" ++ a ++ "\x27"
  | .typeError m => m
  | .valueError m => m

/-- The text the interpreter writes to stderr when an exception reaches the
top level of the process. -/
def pyTraceback (e : PyExn) : String :=
  "Traceback (most recent call last): " ++ pyExnStr e

/-- Python `s.startswith(p)`. -/
def pyStartsWith (s p : String) : Bool :=
  p.data.isPrefixOf s.data

/-- Characters stripped by Python `str.strip()` with no argument. -/
def pyIsSpace (c : Char) : Bool :=
  c = ' ' || c = '\t' || c = '\n' || c = '\r' || c = '\x0b' || c = '\x0c'

/-- Python `s.strip()`: drop leading and trailing whitespace. -/
def pyStrip (s : String) : String :=
  String.mk (((s.data.dropWhile pyIsSpace).reverse.dropWhile pyIsSpace).reverse)

/-- Python `sep.join(xs)`. -/
def pyJoin (sep : String) : List String → String
  | [] => ""
  | [x] => x
  | x :: rest => x ++ sep ++ pyJoin sep rest

/-- Split a character list at newline characters.  `splitNlC cs` always has at
least one (possibly empty) segment. -/
def splitNlC : List Char → List (List Char)
  | [] => [[]]
  | c :: cs =>
    if c = '\n' then [] :: splitNlC cs
    else
      match splitNlC cs with
      | [] => [[c]]
      | l :: ls => (c :: l) :: ls

/-- The terminal lines produced by `print(s)`: `s` split at embedded
newlines (the trailing newline added by `print` terminates the last line). -/
def emit (s : String) : List String :=
  (splitNlC s.data).map String.mk

/-- Line-break characters recognised by Python `str.splitlines()`. -/
def pyIsLineBreak (c : Char) : Bool :=
  c = '\n' || c = '\r' || c = '\x0b' || c = '\x0c' ||
  c = '\x1c' || c = '\x1d' || c = '\x1e' || c = '\x85' ||
  c = '\u2028' || c = '\u2029'

/-- Worker for `pySplitlines`; `acc` holds the current segment reversed and
`afterCR` records that the previous character was a `\r` that already closed
a segment, so that an immediately following `\n` is part of the same `\r\n`
terminator and is consumed silently. -/
def pySplitlinesAux : List Char → List Char → Bool → List String
  | [], acc, _ => if acc = [] then [] else [String.mk acc.reverse]
  | c :: cs, acc, afterCR =>
    if c = '\n' then
      if afterCR then pySplitlinesAux cs [] false
      else String.mk acc.reverse :: pySplitlinesAux cs [] false
    else if pyIsLineBreak c then
      String.mk acc.reverse :: pySplitlinesAux cs [] (c = '\r')
    else pySplitlinesAux cs (c :: acc) false

/-- Python `s.splitlines()`. -/
def pySplitlines (s : String) : List String :=
  pySplitlinesAux s.data [] false

/-- The observable effects of (part of) an invocation: lines written to
stdout, lines written to stderr, and the prompts of the provider API calls
actually made (one entry per `messages.create` call). -/
structure Effects where
  stdout : List String
  stderr : List String
  apiPrompts : List String
deriving Repr

instance : Append Effects :=
  ⟨fun a b => ⟨a.stdout ++ b.stdout, a.stderr ++ b.stderr, a.apiPrompts ++ b.apiPrompts⟩⟩

/-- The empty effect. -/
def Effects.nil : Effects := ⟨[], [], []⟩

theorem Effects.append_def (a b : Effects) :
    a ++ b = ⟨a.stdout ++ b.stdout, a.stderr ++ b.stderr, a.apiPrompts ++ b.apiPrompts⟩ := rfl

/-- The fixed path of the config file (`os.path.join(SCRIPT_DIR, "config.yaml")`);
the directory part is environment-derived and irrelevant to every claim. -/
def CONFIG_PATH : String := "config.yaml"

/-- Body of `print_debug` for the case where the global `CONFIG` is bound to
the mapping `cfg`: the lines written to stderr (one ANSI-grey line when
`debug_mode` is truthy, nothing otherwise). -/
def debug_lines (cfg : List (String × YVal)) (message : String) : List String :=
  if pyTruthy (dictGetD cfg "debug_mode" (.vbool false)) then
    ["\x1b[90m[DEBUG] " ++ message ++ "\x1b[0m"]
  else []

/-- `print_debug` (source lines 17-20).  Its body reads the global `CONFIG`;
`config = none` models the state before line 165 has assigned it, in which
case the lookup of the name raises `NameError`. -/
def print_debug (config : Option YVal) (message : String) : Except PyExn (List String) :=
  match config with
  | none => .error (.nameError "CONFIG")
  | some (.vmap cfg) => .ok (debug_lines cfg message)
  | some v =>
    match pyGet v "debug_mode" with
    | .error e => .error e
    | .ok o => .ok (if optTruthy o then ["\x1b[90m[DEBUG] " ++ message ++ "\x1b[0m"] else [])

/-- Fixed error string substituted for an unexpected response shape
(source line 79). -/
def unexpectedFormatMsg : String :=
  "Error: Received unexpected response format from API."

/-- Validation part of `load_config` (source lines 33-38), the body of the
`try` after `yaml.safe_load` and the debug print.  Mirrors the two `if`
statements, including Python evaluation order and short-circuiting:

  line 34: `not config.get('api_provider')
             or not config.get(config['api_provider'], {}).get('api_key')`
  line 36: `config[config['api_provider']]['api_key'].startswith("YOUR_")
             or config[config['api_provider']]['api_key'] == ""`

The subscripts at line 36 denote the same values the `get` chain at line 34
already proved present, so the model reuses them. -/
def load_config_validate (config : YVal) : Except PyExn YVal :=
  match pyGet config "api_provider" with
  | .error e => .error e
  | .ok apOpt =>
    if !optTruthy apOpt then
      .error (.valueError "API provider or API key missing in config.")
    else
      match apOpt with
      | none => .error (.valueError "API provider or API key missing in config.")
      | some apVal =>
        match pyGetKeyVal config apVal with
        | .error e => .error e
        | .ok blockV =>
          match pyGet blockV "api_key" with
          | .error e => .error e
          | .ok keyOpt =>
            if !optTruthy keyOpt then
              .error (.valueError "API provider or API key missing in config.")
            else
              match keyOpt with
              | some (.vstr k) =>
                if pyStartsWith k "YOUR_" || k = "" then
                  .error (.valueError ("API key for " ++ pyStr apVal ++
                    " seems to be a placeholder. Please update config.yaml."))
                else .ok config
              | _ => .error (.attributeError "startswith")

/-- Outcome of the module-level `CONFIG = load_config()` statement. -/
inductive LoadOutcome where
  | ok : List String → YVal → LoadOutcome
  | exits : List String → Nat → LoadOutcome
  | pyerror : List String → PyExn → LoadOutcome

/-- `load_config` (source lines 22-47).  `fileExists` is the result of
`os.path.exists(CONFIG_PATH)` and `parsed` the outcome of `yaml.safe_load`
(`.error` is a `yaml.YAMLError`).  The accompanying `List String` is what the
function wrote to stderr before returning, exiting, or raising.

Both `print_debug` calls run while the global `CONFIG` is still unbound and
raise `NameError`.  The first (line 24) sits *outside* the `try`, so the
exception escapes the function: every call returns `.pyerror`, and everything
below that first match is dead code, kept because it translates the source. -/
def load_config (fileExists : Bool) (parsed : Except String YVal) : LoadOutcome :=
  match print_debug none ("Looking for config at: " ++ CONFIG_PATH) with
  | .error e => .pyerror [] e
  | .ok d0 =>
    if !fileExists then
      .exits (d0 ++
        ["\x1b[91mError: Configuration file not found at " ++ CONFIG_PATH ++ "\x1b[0m",
         "Please copy config.yaml.template to config.yaml and add your API key."]) 1
    else
      match parsed with
      | .error ymsg =>
        .exits (d0 ++ ["\x1b[91mError parsing configuration file " ++ CONFIG_PATH ++
          ": " ++ ymsg ++ "\x1b[0m"]) 1
      | .ok config =>
        match print_debug none "Config loaded successfully." with
        | .error e =>
          .exits (d0 ++ ["\x1b[91mError loading configuration: " ++ pyExnStr e ++ "\x1b[0m"]) 1
        | .ok d1 =>
          match load_config_validate config with
          | .ok cfg => .ok (d0 ++ d1) cfg
          | .error (.valueError m) =>
            .exits (d0 ++ d1 ++ ["\x1b[91mConfiguration Error: " ++ m ++ "\x1b[0m"]) 1
          | .error e =>
            .exits (d0 ++ d1 ++ ["\x1b[91mError loading configuration: " ++ pyExnStr e ++ "\x1b[0m"]) 1

/-- One content block of a provider response (`message.content` element):
its `type` tag and its `text` payload. -/
structure Block where
  type : String
  text : String
deriving DecidableEq

/-- What the single `client.messages.create` call would yield if made:
a successful reply with a list of content blocks, an `APIStatusError` with a
status code and message, another `APIError`, or any other exception. -/
inductive ApiOutcome where
  | success : List Block → ApiOutcome
  | statusError : Nat → String → ApiOutcome
  | apiError : String → ApiOutcome
  | otherError : String → ApiOutcome

/-- Whether the outcome is one of the three failure branches of the
`try`/`except` in `call_anthropic_api`. -/
def ApiOutcome.isFailure : ApiOutcome → Bool
  | .success _ => false
  | _ => true

/-- The 401 hint printed at source line 84. -/
def hint401Msg : String :=
  "\x1b[91mCheck if your API key is correct and has permissions.\x1b[0m"

/-- `call_anthropic_api` (source lines 49-91), given the bound global
`CONFIG = cfg` and the outcome `api` the provider would give.  Returns the
effects and either the function result (`Option String`, `none` for the
`return None` branches) or an escaping exception (`provider_config.get`
raises when the `anthropic` entry of the config is not a mapping; this sits
outside the `try`).  `apiPrompts` records the one call made, so it is `[]`
exactly on the paths that never reach `messages.create`. -/
def call_anthropic_api (cfg : List (String × YVal)) (prompt : String) (api : ApiOutcome) :
    Effects × Except PyExn (Option String) :=
  match dictGetD cfg "anthropic" (.vmap []) with
  | .vmap pm =>
    let apiKey := dictGet pm "api_key"
    let modelStr := pyStr (dictGetD pm "model" (.vstr "claude-3-sonnet-20240229"))
    let maxTokStr := pyStr (dictGetD pm "max_tokens" (.vint 500))
    let tempStr := match dictGet pm "temperature" with
      | some v => pyStr v
      | none => "0.5"
    if !optTruthy apiKey then
      (⟨[], ["\x1b[91mError: Anthropic API key not found in config.\x1b[0m"], []⟩, .ok none)
    else
      let d1 := debug_lines cfg ("Calling Anthropic API. Model: " ++ modelStr ++
        ", Max Tokens: " ++ maxTokStr ++ ", Temp: " ++ tempStr)
      match api with
      | .success content =>
        let d2 := debug_lines cfg "API call successful."
        match content with
        | [] =>
          (⟨[], d1 ++ d2 ++ debug_lines cfg "Unexpected API response structure: [list]", [prompt]⟩,
           .ok (some unexpectedFormatMsg))
        | b :: _ =>
          if b.type = "text" then
            (⟨[], d1 ++ d2, [prompt]⟩, .ok (some (pyStrip b.text)))
          else
            (⟨[], d1 ++ d2 ++ debug_lines cfg "Unexpected API response structure: [list]", [prompt]⟩,
             .ok (some unexpectedFormatMsg))
      | .statusError status msg =>
        (⟨[], d1 ++
          emit ("\n\x1b[91mAnthropic API Error (Status " ++ toString status ++ "): " ++ msg ++ "\x1b[0m") ++
          (if status = 401 then emit hint401Msg else []), [prompt]⟩, .ok none)
      | .apiError msg =>
        (⟨[], d1 ++ emit ("\n\x1b[91mAnthropic API Error: " ++ msg ++ "\x1b[0m"), [prompt]⟩, .ok none)
      | .otherError msg =>
        (⟨[], d1 ++ emit ("\n\x1b[91mAn unexpected error occurred during API call: " ++ msg ++ "\x1b[0m"),
          [prompt]⟩, .ok none)
  | _ => (⟨[], [], []⟩, .error (.attributeError "get"))

/-- The dispatcher error line for an unknown provider (source line 106). -/
def unknownProviderMsg (provider : YVal) : String :=
  "\x1b[91mError: Unknown API provider \x27" ++ pyStr provider ++ "\x27 configured.\x1b[0m"

/-- Python equality between a value and a string literal (`provider == "..."`):
true only for an equal string, false for every non-string value. -/
def providerEq (provider : YVal) (s : String) : Bool :=
  match provider with
  | .vstr t => t = s
  | _ => false

/-- `call_ai_api` (source lines 93-107): route on `CONFIG.get('api_provider',
'anthropic')`.  Python compares the configured value with the string literals,
so any non-string value falls through to the unknown-provider branch. -/
def call_ai_api (cfg : List (String × YVal)) (prompt : String) (api : ApiOutcome) :
    Effects × Except PyExn (Option String) :=
  let provider := dictGetD cfg "api_provider" (.vstr "anthropic")
  let d := debug_lines cfg ("Using API provider: " ++ pyStr provider)
  if providerEq provider "anthropic" then
    let (eff, r) := call_anthropic_api cfg prompt api
    (⟨[], d, []⟩ ++ eff, r)
  else if providerEq provider "openai" then
    (⟨[], d ++ emit "\x1b[93mOpenAI support is not fully implemented yet.\x1b[0m", []⟩,
     .ok (some "OpenAI support not ready."))
  else
    (⟨[], d ++ emit (unknownProviderMsg provider), []⟩, .ok none)

/-- The title line printed by `format_ai_response` (source line 111; the
`print` argument starts with an explicit newline). -/
def titleLine (title : String) : String :=
  "\x1b[1;36m🤖 " ++ title ++ ":\x1b[0m"

/-- `format_ai_response` (source lines 109-115): the stdout lines of the
three print statements — the newline-prefixed title, one indented print per
`splitlines()` element, and a final empty print. -/
def format_ai_response (response_text : String) (title : String) : List String :=
  emit ("\n" ++ titleLine title) ++
  (pySplitlines response_text).flatMap (fun line => emit ("   " ++ line)) ++
  emit ""

/-- How a command handler leaves the process: return normally, call
`sys.exit(n)`, or let an exception escape. -/
inductive HandlerResult where
  | ret : Effects → HandlerResult
  | exits : Effects → Nat → HandlerResult
  | raise : Effects → PyExn → HandlerResult

/-- The effects a handler produced, whichever way it finished. -/
def HandlerResult.eff : HandlerResult → Effects
  | .ret e => e
  | .exits e _ => e
  | .raise e _ => e

/-- Truthiness of `response` at source lines 130 and 153: a non-`None`,
non-empty string. -/
def strOptTruthy : Option String → Bool
  | none => false
  | some s => s ≠ ""

/-- `handle_chat` (source lines 120-131), with the bound global
`CONFIG = cfg` and `args.query = query`.  An empty joined query prints an
error and exits 1 before the dispatcher is reached. -/
def handle_chat (cfg : List (String × YVal)) (query : List String) (api : ApiOutcome) :
    HandlerResult :=
  let q := pyJoin " " query
  if q = "" then
    .exits ⟨[], ["\x1b[91mError: Please provide a question for the chat.\x1b[0m"], []⟩ 1
  else
    let d := debug_lines cfg ("Chat query: " ++ q)
    let prompt := "The user asked the following question in their terminal: \x27" ++ q ++
      "\x27. Provide a helpful answer or relevant command(s)."
    let (eff, r) := call_ai_api cfg prompt api
    match r with
    | .error e => .raise (⟨[], d, []⟩ ++ eff) e
    | .ok resp =>
      if strOptTruthy resp then
        .ret (⟨[], d, []⟩ ++ eff ++
          ⟨format_ai_response (resp.getD "") "AI Chat", [], []⟩)
      else
        .ret (⟨[], d, []⟩ ++ eff)

/-- The prompt built by `handle_fix_error` (source lines 146-151). -/
def fixPrompt (command exit_code : String) : String :=
  "The following shell command failed with exit code " ++ exit_code ++ ":\n" ++
  "```\n" ++ command ++ "\n```\n" ++
  "Explain the likely reason for the error and suggest one or more specific commands to fix it or achieve the user\x27s likely intent. " ++
  "If it\x27s a simple typo, point it out. Be concise."

/-- `handle_fix_error` (source lines 133-154), with the bound global
`CONFIG = cfg`.  When `is_automatic` and `auto_fix_errors` is not truthy in
the config, the function returns after at most a debug line: nothing is
printed to stdout and no API call is made. -/
def handle_fix_error (cfg : List (String × YVal)) (command exit_code : String)
    (is_automatic : Bool) (api : ApiOutcome) : HandlerResult :=
  if command = "" then
    .ret ⟨[], ["\x1b[91mError: Could not determine the command that failed.\x1b[0m"], []⟩
  else
    let d1 := debug_lines cfg ("Fix error requested for command: \x27" ++ command ++
      "\x27 (Exit code: " ++ exit_code ++ ", Automatic: " ++
      (if is_automatic then "True" else "False") ++ ")")
    if is_automatic && !pyTruthy (dictGetD cfg "auto_fix_errors" (.vbool false)) then
      .ret ⟨[], d1 ++ debug_lines cfg "Automatic error fixing is disabled in config. Skipping.", []⟩
    else
      let (eff, r) := call_ai_api cfg (fixPrompt command exit_code) api
      match r with
      | .error e => .raise (⟨[], d1, []⟩ ++ eff) e
      | .ok resp =>
        if strOptTruthy resp then
          .ret (⟨[], d1, []⟩ ++ eff ++
            ⟨format_ai_response (resp.getD "") ("AI Fix Suggestion (for `" ++ command ++ "`)"), [], []⟩)
        else
          .ret (⟨[], d1, []⟩ ++ eff)

/-- `handle_build` (source lines 156-158): one stdout line, no API call. -/
def handle_build : HandlerResult :=
  .ret ⟨["\x1b[93mSorry, the \x27build\x27 command (generating commands from description) is not yet implemented.\x1b[0m"],
    [], []⟩

/-! ### The argparse model

The parser built in `main` (source lines 172-192) consists of the automatic
`-h`/`--help` option and one subparsers positional (`dest='command'`) with the
sub-commands `chat` (one required `query` positional list), `fix` (no
arguments), `build` (one required `description` positional list) and
`--internal-fix-error`.  The model below reproduces argparse's reachable
behaviour for this configuration, checked against CPython 3.11:

  * a token is lexed as an optional when it begins with `-`, is not `-` or
    `--` alone, and does not look like a negative number (this parser defines
    no `-<digit>` options, so negative-number-like tokens are positional);
  * `-h`/`--help` anywhere before the subcommand token prints help and raises
    `SystemExit(0)`; inside a subcommand's arguments it does the same;
  * any other optional-looking token is unrecognised: parsing continues and
    the parse as a whole fails with `SystemExit(2)`;
  * the first positional-looking token is taken as the subcommand name and
    everything after it belongs to the subparser; a name outside the choice
    set fails with `SystemExit(2)` (''invalid choice'').  Because the choice
    `--internal-fix-error` begins with `--`, no positional-looking token can
    ever equal it: that subparser is unreachable, and any argv starting with
    `--internal-fix-error` fails to parse;
  * inside a subparser, a first `--` makes the remaining tokens positional.
-/

/-- Does `cs` match `\d+` ? -/
def allDigits (cs : List Char) : Bool :=
  !cs.isEmpty && cs.all Char.isDigit

/-- Split at the first `.`, if any. -/
def splitAtDot : List Char → Option (List Char × List Char)
  | [] => none
  | c :: cs =>
    if c = '.' then some ([], cs)
    else match splitAtDot cs with
      | none => none
      | some (a, b) => some (c :: a, b)

/-- argparse's negative-number test: `-\d+` or `-\d*\.\d+`. -/
def isNegNum (s : String) : Bool :=
  match s.data with
  | '-' :: rest =>
    (match splitAtDot rest with
     | none => allDigits rest
     | some (a, b) => a.all Char.isDigit && allDigits b)
  | _ => false

/-- Whether argparse lexes the token as an optional for this parser. -/
def isOptionLike (s : String) : Bool :=
  pyStartsWith s "-" && s ≠ "-" && s ≠ "--" && !isNegNum s

/-- A successfully parsed namespace: either no subcommand
(`Namespace(command=None)`) or one of the reachable subcommands. -/
inductive Parsed where
  | noCmd : Parsed
  | chatCmd : List String → Parsed
  | fixCmd : Parsed
  | buildCmd : List String → Parsed

/-- Result of `parser.parse_args()`: help printed and `SystemExit(0)`,
a parse failure (usage and message on stderr, `SystemExit(2)`), or a
namespace. -/
inductive ParseResult where
  | help : ParseResult
  | err : String → ParseResult
  | ok : Parsed → ParseResult

/-- Scan of a subparser's argument strings (after the subcommand token):
help requested, or the positional tokens plus whether any unrecognised
optional was seen.  The `Bool` argument records that a `--` was passed. -/
inductive SubScan where
  | help : SubScan
  | done : List String → Bool → SubScan

/-- Worker scanning a subparser's tokens. -/
def subScan : List String → Bool → SubScan
  | [], _ => .done [] false
  | t :: rest, afterDD =>
    if !afterDD && (t = "-h" || t = "--help") then .help
    else if !afterDD && t = "--" then subScan rest true
    else if !afterDD && isOptionLike t then
      match subScan rest afterDD with
      | .help => .help
      | .done ps _ => .done ps true
    else
      match subScan rest afterDD with
      | .help => .help
      | .done ps e => .done (t :: ps) e

/-- Parse a subcommand taking one required positional list (`chat`, `build`).
`extrasMain` records unrecognised optionals seen before the subcommand. -/
def parsePosSub (rest : List String) (extrasMain : Bool) (mk : List String → Parsed) :
    ParseResult :=
  match subScan rest false with
  | .help => .help
  | .done ps e =>
    if ps.isEmpty then .err "ai: error: the following arguments are required"
    else if e || extrasMain then .err "ai: error: unrecognized arguments"
    else .ok (mk ps)

/-- Parse the argument-less `fix` subcommand. -/
def parseFixSub (rest : List String) (extrasMain : Bool) : ParseResult :=
  match subScan rest false with
  | .help => .help
  | .done ps e =>
    if !ps.isEmpty || e || extrasMain then .err "ai: error: unrecognized arguments"
    else .ok .fixCmd

/-- Main-parser scan: optionals before the first positional-looking token,
then the subcommand dispatch.  The registered choice `--internal-fix-error`
cannot be tested here because the candidate token is never option-like. -/
def parseMainLoop : List String → Bool → ParseResult
  | [], extras =>
    if extras then .err "ai: error: unrecognized arguments" else .ok .noCmd
  | t :: rest, extras =>
    if t = "-h" || t = "--help" then .help
    else if isOptionLike t then parseMainLoop rest true
    else if t = "chat" then parsePosSub rest extras Parsed.chatCmd
    else if t = "fix" then parseFixSub rest extras
    else if t = "build" then parsePosSub rest extras Parsed.buildCmd
    else .err ("ai: error: argument command: invalid choice: \x27" ++ t ++ "\x27")

/-- `parser.parse_args()` over `sys.argv[1:]`. -/
def parse_args (argv : List String) : ParseResult :=
  parseMainLoop argv false

/-- The known commands checked before parsing (source line 199). -/
def known_commands : List String := ["chat", "fix", "build", "--internal-fix-error"]

/-- The default-command insertion (source lines 200-202): bare text that is
not a known command and does not start with `-` becomes a `chat` query. -/
def adjustedArgv (argv : List String) : List String :=
  match argv with
  | [] => []
  | a :: rest =>
    if !known_commands.contains a && !pyStartsWith a "-" then "chat" :: a :: rest
    else a :: rest

/-- Placeholder for the argparse-generated usage/help text; its exact content
is irrelevant to every claim. -/
def helpText : String := "usage: ai ..."

/-- The fallback message of source line 218. -/
def invalidUsageMsg : String :=
  "Invalid usage. Try \x27ai chat <query>\x27 or \x27ai fix\x27. Use \x27ai --help\x27 for details."

/-- The fallback block of `main` (source lines 212-219), reached when no
namespace with a command was obtained.  `argv2` is `sys.argv[1:]` after the
possible `chat` insertion (line 202 mutates `sys.argv` in place, and line 214
inspects it).  Help goes to stdout, the invalid-usage message to stderr, and
either way the process exits 1. -/
def mainFallback (argv2 : List String) (eff0 : Effects) : Effects × Nat :=
  match argv2 with
  | [] => (eff0 ++ ⟨[helpText], [], []⟩, 1)
  | a :: _ =>
    if a = "-h" || a = "--help" then (eff0 ++ ⟨[helpText], [], []⟩, 1)
    else (eff0 ++ ⟨[], [invalidUsageMsg], []⟩, 1)

/-- Finish `main` after a handler ran: a normal return falls off the end of
`main` (exit status 0), `sys.exit(n)` exits with `n`, and an escaping
exception reaches the top level (traceback, exit status 1). -/
def finishHandler : HandlerResult → Effects × Nat
  | .ret eff => (eff, 0)
  | .exits eff n => (eff, n)
  | .raise eff e => (eff ++ ⟨[], [pyTraceback e], []⟩, 1)

/-- The manual `fix` branch of `main` (source lines 225-239).  `hist` is the
outcome of the `subprocess.run(['fc','-ln','-1'], ...)` call: `.ok out` is
its captured stdout, `.error e` any exception (`check=True` turns a failing
command into one).  The surrounding `try` also catches exceptions escaping
`handle_fix_error`; either way the handler's branch ends by returning, so
`main` falls off the end with exit status 0. -/
def mainFixBranch (cfg : List (String × YVal)) (hist : Except String String)
    (api : ApiOutcome) : Effects × Nat :=
  match hist with
  | .error e =>
    (⟨[], ["\x1b[91mError retrieving last command from history: " ++ e ++ "\x1b[0m",
           "Please run \x27ai fix\x27 immediately after a command fails for best results."], []⟩, 0)
  | .ok out =>
    let lastCmd := pyStrip out
    let d := debug_lines cfg ("Manual \x27fix\x27 invoked. Last command from history: " ++ lastCmd)
    match handle_fix_error cfg lastCmd "unknown" false api with
    | .ret eff => (⟨[], d, []⟩ ++ eff, 0)
    | .exits eff n => (⟨[], d, []⟩ ++ eff, n)
    | .raise eff e =>
      (⟨[], d, []⟩ ++ eff ++
        ⟨[], ["\x1b[91mError retrieving last command from history: " ++ pyExnStr e ++ "\x1b[0m",
              "Please run \x27ai fix\x27 immediately after a command fails for best results."], []⟩, 0)

/-- `main` (source lines 171-244), given the bound global `CONFIG = cfg`,
`sys.argv[1:] = argv`, and the outcomes of the two external calls it may
make.  The `--internal-fix-error` dispatch arm (lines 243-244) has no
counterpart here because `parse_args` can never produce that subcommand (see
the argparse model notes above). -/
def main_flow (cfg : List (String × YVal)) (argv : List String)
    (hist : Except String String) (api : ApiOutcome) : Effects × Nat :=
  let argv2 := adjustedArgv argv
  match parse_args argv2 with
  | .help => mainFallback argv2 ⟨[helpText], [], []⟩
  | .err m => mainFallback argv2 ⟨[], [m], []⟩
  | .ok .noCmd => mainFallback argv2 ⟨[], [], []⟩
  | .ok (.chatCmd q) => finishHandler (handle_chat cfg q api)
  | .ok .fixCmd => mainFixBranch cfg hist api
  | .ok (.buildCmd _) => finishHandler handle_build

/-- Everything an invocation of the program can observe from the outside. -/
structure ProgInput where
  fileExists : Bool
  parsed : Except String YVal
  argv : List String
  hist : Except String String
  api : ApiOutcome

/-- The whole process (module execution, source lines 163-247): run
`CONFIG = load_config()` inside the `try`/`except SystemExit` (lines
164-168), then `main()`.  A `SystemExit` from `load_config` is re-raised as
`sys.exit(1)`; any other exception escaping it (the unbound-`CONFIG`
`NameError`) reaches the interpreter top level: traceback on stderr, exit
status 1. -/
def run (inp : ProgInput) : Effects × Nat :=
  match load_config inp.fileExists inp.parsed with
  | .pyerror errs e => (⟨[], errs ++ [pyTraceback e], []⟩, 1)
  | .exits errs _ => (⟨[], errs, []⟩, 1)
  | .ok errs cfgV =>
    match cfgV with
    | .vmap m =>
      let (eff, code) := main_flow m inp.argv inp.hist inp.api
      (⟨eff.stdout, errs ++ eff.stderr, eff.apiPrompts⟩, code)
    | _ => (⟨[], errs ++ [pyTraceback (.attributeError "get")], []⟩, 1)

/-! ### Example configurations used in witnesses and counterexamples -/

/-- A well-formed `anthropic` provider block. -/
def goodAnthropicBlock : YVal :=
  .vmap [("api_key", .vstr "sk-test-123"),
         ("model", .vstr "claude-3-sonnet-20240229"),
         ("max_tokens", .vint 500)]

/-- A valid configuration mapping with `auto_fix_errors` disabled. -/
def goodCfg : List (String × YVal) :=
  [("api_provider", .vstr "anthropic"),
   ("anthropic", goodAnthropicBlock),
   ("debug_mode", .vbool false),
   ("auto_fix_errors", .vbool false)]

/-- The same configuration with `auto_fix_errors` enabled. -/
def autoFixCfg : List (String × YVal) :=
  [("api_provider", .vstr "anthropic"),
   ("anthropic", goodAnthropicBlock),
   ("debug_mode", .vbool false),
   ("auto_fix_errors", .vbool true)]

/-! ### Supporting lemmas -/

theorem string_mk_data (s : String) : String.mk s.data = s := by
  cases s
  rfl

theorem string_append_data (a b : String) : (a ++ b).data = a.data ++ b.data := by
  cases a
  cases b
  rfl

/-- `splitNlC` never returns the empty list. -/
theorem splitNlC_ne_nil (cs : List Char) : splitNlC cs ≠ [] := by
  induction cs with
  | nil => simp [splitNlC]
  | cons c cs ih =>
    simp only [splitNlC]
    split
    · simp
    · cases h : splitNlC cs with
      | nil => simp
      | cons l ls => simp

/-- `emit` always produces at least one line. -/
theorem emit_ne_nil (s : String) : emit s ≠ [] := by
  simp only [emit, ne_eq, List.map_eq_nil_iff]
  exact splitNlC_ne_nil s.data

/-- A character list without newlines is one segment. -/
theorem splitNlC_no_nl (cs : List Char) (h : '\n' ∉ cs) : splitNlC cs = [cs] := by
  induction cs with
  | nil => rfl
  | cons c cs ih =>
    simp only [List.mem_cons, not_or] at h
    simp only [splitNlC]
    rw [if_neg (fun hc => h.1 hc.symm)]
    rw [ih h.2]

/-- A string without newlines prints as a single line. -/
theorem emit_no_nl (s : String) (h : '\n' ∉ s.data) : emit s = [s] := by
  simp only [emit, splitNlC_no_nl s.data h, List.map_cons, List.map_nil, string_mk_data]
/-- A leading explicit newline produces an empty line followed by the rest. -/
theorem emit_nl_cons (s : String) (h : '\n' ∉ s.data) : emit ("\n" ++ s) = ["", s] := by
  have hd : ("\n" ++ s).data = '\n' :: s.data := by
    rw [string_append_data]
    rfl
  rw [emit, hd]
  rw [show splitNlC ('\n' :: s.data) = [] :: splitNlC s.data from by simp [splitNlC]]
  rw [splitNlC_no_nl s.data h]
  simp [string_mk_data]

/-- Segments returned by `pySplitlinesAux` contain no newline characters:
newlines are line breaks, so they are never pushed onto a segment. -/
theorem pySplitlinesAux_no_nl (cs : List Char) :
    ∀ acc afterCR, '\n' ∉ acc → ∀ l ∈ pySplitlinesAux cs acc afterCR, '\n' ∉ l.data := by
  induction cs with
  | nil =>
    intro acc afterCR hacc l hl
    simp only [pySplitlinesAux] at hl
    split at hl
    · simp at hl
    · simp only [List.mem_singleton] at hl
      subst hl
      simpa using fun hmem => hacc (List.mem_reverse.mp hmem)
  | cons c cs ih =>
    intro acc afterCR hacc l hl
    simp only [pySplitlinesAux] at hl
    split at hl
    · split at hl
      · exact ih [] false (by simp) l hl
      · rcases (List.mem_cons.mp hl) with hl | hl
        · subst hl
          simpa using fun hmem => hacc (List.mem_reverse.mp hmem)
        · exact ih [] false (by simp) l hl
    · split at hl
      · rcases (List.mem_cons.mp hl) with hl | hl
        · subst hl
          simpa using fun hmem => hacc (List.mem_reverse.mp hmem)
        · exact ih [] _ (by simp) l hl
      · refine ih (c :: acc) false ?_ l hl
        intro hmem
        rcases List.mem_cons.mp hmem with hc | hc
        · rename_i hcn _
          exact hcn hc.symm
        · exact hacc hc

/-- Segments of `pySplitlines` contain no newline characters. -/
theorem pySplitlines_no_nl (s : String) : ∀ l ∈ pySplitlines s, '\n' ∉ l.data :=
  pySplitlinesAux_no_nl s.data [] false (by simp)

/-- The startup defect: `load_config` raises `NameError` on its very first
statement (the `print_debug` call reads the still-unbound global `CONFIG`),
for every input.  Everything after that statement is dead code. -/
theorem load_config_always_raises (fileExists : Bool) (parsed : Except String YVal) :
    load_config fileExists parsed = .pyerror [] (.nameError "CONFIG") := rfl

/-- Printing a list of newline-free lines with the three-space indent yields
exactly one output line per input line. -/
theorem flatMap_emit_indent (ls : List String) (h : ∀ l ∈ ls, '\n' ∉ l.data) :
    ls.flatMap (fun l => emit ("   " ++ l)) = ls.map (fun l => "   " ++ l) := by
  induction ls with
  | nil => rfl
  | cons l ls ih =>
    have hl : '\n' ∉ ("   " ++ l).data := by
      rw [string_append_data]
      intro hmem
      rcases List.mem_append.mp hmem with hc | hc
      · simp at hc
      · exact h l (List.mem_cons_self l ls) hc
    rw [List.flatMap_cons, List.map_cons, emit_no_nl _ hl, ih (fun x hx => h x (List.mem_cons_of_mem l hx))]
    rfl

/-- A value different from `.vstr s` is not Python-equal to the literal `s`. -/
theorem providerEq_false (v : YVal) (s : String) (h : v ≠ .vstr s) :
    providerEq v s = false := by
  cases v <;> simp [providerEq]
  intro heq
  exact h (by rw [heq])

/-- The claim-side reading of "the selected provider has a usable api_key
block": the `anthropic` entry of the config (defaulting to an empty dict) is
a mapping whose `api_key` is truthy.  On such configurations
`call_anthropic_api` reaches the single `messages.create` call. -/
def anthropic_key_present (cfg : List (String × YVal)) : Bool :=
  match dictGetD cfg "anthropic" (.vmap []) with
  | .vmap pm => optTruthy (dictGet pm "api_key")
  | _ => false

/-- Claim-side predicate for C4: the selected provider's `api_key` entry,
when the configuration has the shape the spec describes. -/
def selectedProviderApiKey (cfg : YVal) : Option YVal :=
  match cfg with
  | .vmap m =>
    match dictGet m "api_provider" with
    | some (.vstr p) =>
      (match dictGet m p with
       | some (.vmap pm) => dictGet pm "api_key"
       | _ => none)
    | _ => none
  | _ => none

/-- Claim-side predicate for C4: the selected provider's api_key is missing,
empty, or a `YOUR_` placeholder. -/
def apiKeyMissingOrPlaceholder (cfg : YVal) : Bool :=
  match selectedProviderApiKey cfg with
  | none => true
  | some (.vstr k) => k = "" || pyStartsWith k "YOUR_"
  | some _ => false

/-- Claim-side invariant for C10: a non-empty `api_provider` string, a block
under that provider name, and a non-empty, non-placeholder string `api_key`
in that block. -/
def configInvariantB (cfg : YVal) : Bool :=
  match cfg with
  | .vmap m =>
    match dictGet m "api_provider" with
    | some (.vstr p) =>
      p ≠ "" &&
      (match dictGet m p with
       | some (.vmap pm) =>
         (match dictGet pm "api_key" with
          | some (.vstr k) => k ≠ "" && !pyStartsWith k "YOUR_"
          | _ => false)
       | _ => false)
    | _ => false
  | _ => false

/-- The hook argv of the two `--internal-fix-error` claims, at the concrete
failed command `ls -Z` with exit code `2`. -/
def hookArgvExample : List String :=
  ["--internal-fix-error", "--command", "ls -Z", "--exit_code", "2"]

/-! ### Claim theorems -/

/-- C1: the claim states that `--internal-fix-error --command C --exit_code E`
with `auto_fix_errors` enabled builds the fix prompt from C and E and prints
the AI fix suggestion.  The code cannot do this: the process dies at startup
with the unbound-`CONFIG` `NameError` (exit 1, nothing on stdout, no API
call), and even with the global bound, `main` cannot parse the hook argv —
argparse rejects the option-like subcommand token, and the fallback prints
the invalid-usage message to stderr and exits 1.  This theorem evaluates both
levels at the failing input `C = "ls -Z"`, `E = "2"` with a valid
`auto_fix_errors: true` configuration and a successful API outcome. -/
theorem hook_invocation_never_reaches_handler :
    (run ⟨true, .ok (.vmap autoFixCfg), hookArgvExample, .ok "ls", .success [⟨"text", "ok"⟩]⟩).2 = 1
    ∧ (run ⟨true, .ok (.vmap autoFixCfg), hookArgvExample, .ok "ls", .success [⟨"text", "ok"⟩]⟩).1.stdout = []
    ∧ (run ⟨true, .ok (.vmap autoFixCfg), hookArgvExample, .ok "ls", .success [⟨"text", "ok"⟩]⟩).1.apiPrompts = []
    ∧ (main_flow autoFixCfg hookArgvExample (.ok "ls") (.success [⟨"text", "ok"⟩])).2 = 1
    ∧ (main_flow autoFixCfg hookArgvExample (.ok "ls") (.success [⟨"text", "ok"⟩])).1.stdout = []
    ∧ (main_flow autoFixCfg hookArgvExample (.ok "ls") (.success [⟨"text", "ok"⟩])).1.apiPrompts = [] :=
  ⟨rfl, rfl, rfl, rfl, rfl, rfl⟩

/-- C2: invoking `--internal-fix-error --command C --exit_code E` with
`auto_fix_errors: false` in the config writes nothing to stdout and makes no
provider API call, for every command string, exit-code string, history
outcome and API outcome. -/
theorem internal_fix_disabled_silent (m : List (String × YVal)) (c e : String)
    (hist : Except String String) (api : ApiOutcome)
    (h : dictGet m "auto_fix_errors" = some (.vbool false)) :
    (run ⟨true, .ok (.vmap m), ["--internal-fix-error", "--command", c, "--exit_code", e], hist, api⟩).1.stdout = []
    ∧ (run ⟨true, .ok (.vmap m), ["--internal-fix-error", "--command", c, "--exit_code", e], hist, api⟩).1.apiPrompts = [] := by
  constructor <;> simp [run, load_config_always_raises]

/-- C2 witness: the theorem at the concrete configuration `goodCfg` (which
maps `auto_fix_errors` to `false`) and command `ls -Z`, exit code `2`. -/
theorem internal_fix_disabled_silent_witness :
    (run ⟨true, .ok (.vmap goodCfg), ["--internal-fix-error", "--command", "ls -Z", "--exit_code", "2"], .error "h", .success []⟩).1.stdout = []
    ∧ (run ⟨true, .ok (.vmap goodCfg), ["--internal-fix-error", "--command", "ls -Z", "--exit_code", "2"], .error "h", .success []⟩).1.apiPrompts = [] :=
  internal_fix_disabled_silent goodCfg "ls -Z" "2" (.error "h") (.success []) rfl

/-- C4: for every input whose config file is missing, whose YAML is
unparsable, or whose selected provider api_key is missing or a placeholder,
the process terminates with exit status 1, writes a message to stderr, and
makes no provider API call before exiting. -/
theorem bad_config_exits_without_network (inp : ProgInput)
    (h : inp.fileExists = false
       ∨ (∃ e, inp.parsed = .error e)
       ∨ (∃ cfg, inp.parsed = .ok cfg ∧ apiKeyMissingOrPlaceholder cfg = true)) :
    (run inp).2 = 1 ∧ (run inp).1.stderr ≠ [] ∧ (run inp).1.apiPrompts = [] := by
  refine ⟨?_, ?_, ?_⟩ <;> simp [run, load_config_always_raises]

/-- C4 witness: the theorem at a missing config file. -/
theorem bad_config_exits_without_network_witness :
    (run ⟨false, .error "file absent", [], .error "h", .success []⟩).2 = 1
    ∧ (run ⟨false, .error "file absent", [], .error "h", .success []⟩).1.stderr ≠ []
    ∧ (run ⟨false, .error "file absent", [], .error "h", .success []⟩).1.apiPrompts = [] :=
  bad_config_exits_without_network ⟨false, .error "file absent", [], .error "h", .success []⟩
    (Or.inl rfl)

/-- C5: a `chat` invocation whose joined query text is empty prints the
missing-question error to stderr and exits with status 1 before the provider
dispatcher is reached (no stdout output, no API prompt). -/
theorem chat_empty_query_exits_one (cfg : List (String × YVal)) (query : List String)
    (api : ApiOutcome) (h : pyJoin " " query = "") :
    handle_chat cfg query api =
      .exits ⟨[], ["\x1b[91mError: Please provide a question for the chat.\x1b[0m"], []⟩ 1 := by
  simp [handle_chat, h]

/-- C5 witness: the theorem at the query list containing one empty string
(`ai chat ''`). -/
theorem chat_empty_query_exits_one_witness :
    handle_chat goodCfg [""] (.success []) =
      .exits ⟨[], ["\x1b[91mError: Please provide a question for the chat.\x1b[0m"], []⟩ 1 :=
  chat_empty_query_exits_one goodCfg [""] (.success []) rfl

/-- C7: the claim states exit status 0 for a successful chat and for an
explicit help request.  The code exits 1 in both cases: the startup
`NameError` makes every invocation exit 1, and even with the global bound,
the help `SystemExit(0)` raised by argparse is swallowed at line 206 and the
fallback block re-prints the help and calls `sys.exit(1)`. -/
theorem exit_status_one_despite_success :
    (run ⟨true, .ok (.vmap goodCfg), ["chat", "hello"], .ok "ls", .success [⟨"text", "Use ls"⟩]⟩).2 = 1
    ∧ (main_flow goodCfg ["-h"] (.ok "ls") (.success [⟨"text", "Use ls"⟩])).2 = 1 :=
  ⟨rfl, rfl⟩

/-- C3 counterexample: a successful response whose first block is a
`tool_use` block and whose first *text* block (content `hi` after trimming)
comes second does not return that text block's content: the claim as stated
is false at this input (the code substitutes the fixed error string). -/
theorem first_text_block_counterexample :
    (call_anthropic_api goodCfg "p" (.success [⟨"tool_use", "x"⟩, ⟨"text", " hi "⟩])).2 ≠
      .ok (some "hi") := by
  intro hcontra
  have hval : (call_anthropic_api goodCfg "p"
      (.success [⟨"tool_use", "x"⟩, ⟨"text", " hi "⟩])).2 = .ok (some unexpectedFormatMsg) := rfl
  rw [hval] at hcontra
  have : unexpectedFormatMsg = "hi" := by
    injection hcontra with h1
    injection h1
  exact absurd this (by decide)

/-- C3 amended: for every successful response with a non-empty block list
(and a configuration whose anthropic api_key is present), the returned text
is the *first block's* content trimmed of surrounding whitespace when that
first block is a text block; otherwise the fixed error string is returned —
a text block that is not the head of the list is never used. -/
theorem first_block_extraction (cfg : List (String × YVal)) (prompt : String)
    (b : Block) (bs : List Block) (hk : anthropic_key_present cfg = true) :
    (call_anthropic_api cfg prompt (.success (b :: bs))).2 =
      .ok (some (if b.type = "text" then pyStrip b.text else unexpectedFormatMsg)) := by
  revert hk
  unfold anthropic_key_present
  cases hc : dictGetD cfg "anthropic" (.vmap []) <;> intro hk <;> simp at hk
  next pm =>
    by_cases ht : b.type = "text" <;> simp [call_anthropic_api, hc, hk, ht]

/-- C3 amended witness: a one-block text response returns its trimmed text. -/
theorem first_block_extraction_witness :
    (call_anthropic_api goodCfg "p" (.success [⟨"text", " hi "⟩])).2 =
      .ok (some (if (Block.mk "text" " hi ").type = "text"
        then pyStrip (Block.mk "text" " hi ").text else unexpectedFormatMsg)) :=
  first_block_extraction goodCfg "p" ⟨"text", " hi "⟩ [] rfl

/-- C9: for every response text (and any newline-free title), the formatted
output is the title print (an empty line from the explicit leading newline,
then the title line), followed by each `splitlines()` line of the response
prefixed with the fixed three-space indent, and a trailing blank line. -/
theorem format_response_titled_block (text title : String) (h : '\n' ∉ title.data) :
    format_ai_response text title =
      "" :: titleLine title :: ((pySplitlines text).map (fun l => "   " ++ l) ++ [""]) := by
  have hT : '\n' ∉ (titleLine title).data := by
    rw [titleLine, string_append_data, string_append_data]
    intro hmem
    rcases List.mem_append.mp hmem with hc | hc
    · rcases List.mem_append.mp hc with hc2 | hc2
      · revert hc2
        decide
      · exact h hc2
    · revert hc
      decide
  rw [format_ai_response, emit_nl_cons _ hT, flatMap_emit_indent _ (pySplitlines_no_nl text)]
  rw [show emit "" = [""] from rfl]
  simp

/-- C9 witness: the single-line mocked response renders as exactly that line,
indented, under the title: the list is `["", title line, "   Use `ls`.", ""]`. -/
theorem format_response_titled_block_witness :
    format_ai_response "Use `ls`." "AI Assistant" =
      "" :: titleLine "AI Assistant" ::
        ((pySplitlines "Use `ls`.").map (fun l => "   " ++ l) ++ [""]) :=
  format_response_titled_block "Use `ls`." "AI Assistant" (by decide)

/-- C6: for every configured `api_provider` value outside the supported set,
the dispatcher writes the unknown-provider error to stderr, returns `None`,
makes no provider API call, and `handle_chat` (with a non-empty query)
prints nothing to stdout and sends no prompt. -/
theorem unknown_provider_no_call (cfg : List (String × YVal)) (v : YVal) (prompt : String)
    (query : List String) (api : ApiOutcome)
    (hv : dictGet cfg "api_provider" = some v)
    (h1 : v ≠ .vstr "anthropic") (h2 : v ≠ .vstr "openai")
    (hq : pyJoin " " query ≠ "") :
    (call_ai_api cfg prompt api).2 = .ok none
    ∧ (call_ai_api cfg prompt api).1.apiPrompts = []
    ∧ (call_ai_api cfg prompt api).1.stderr ≠ []
    ∧ (handle_chat cfg query api).eff.stdout = []
    ∧ (handle_chat cfg query api).eff.apiPrompts = [] := by
  have hpd : dictGetD cfg "api_provider" (.vstr "anthropic") = v := by
    simp [dictGetD, hv]
  have hca : ∀ p, call_ai_api cfg p api =
      (⟨[], debug_lines cfg ("Using API provider: " ++ pyStr v) ++ emit (unknownProviderMsg v), []⟩,
       .ok none) := by
    intro p
    simp only [call_ai_api, hpd, providerEq_false v "anthropic" h1,
      providerEq_false v "openai" h2]
    simp
  have hstderr : debug_lines cfg ("Using API provider: " ++ pyStr v) ++
      emit (unknownProviderMsg v) ≠ [] := by
    intro hnil
    exact emit_ne_nil (unknownProviderMsg v) (List.append_eq_nil.mp hnil).2
  refine ⟨?_, ?_, ?_, ?_, ?_⟩
  · rw [hca]
  · rw [hca]
  · rw [hca]
    exact hstderr
  · simp [handle_chat, hq, hca, strOptTruthy, HandlerResult.eff, Effects.append_def]
  · simp [handle_chat, hq, hca, strOptTruthy, HandlerResult.eff, Effects.append_def]

/-- C6 witness: a config selecting the unsupported provider `gemini`,
query `hi`. -/
theorem unknown_provider_no_call_witness :
    (call_ai_api [("api_provider", .vstr "gemini")] "p" (.success [])).2 = .ok none
    ∧ (call_ai_api [("api_provider", .vstr "gemini")] "p" (.success [])).1.apiPrompts = []
    ∧ (call_ai_api [("api_provider", .vstr "gemini")] "p" (.success [])).1.stderr ≠ []
    ∧ (handle_chat [("api_provider", .vstr "gemini")] ["hi"] (.success [])).eff.stdout = []
    ∧ (handle_chat [("api_provider", .vstr "gemini")] ["hi"] (.success [])).eff.apiPrompts = [] :=
  unknown_provider_no_call [("api_provider", .vstr "gemini")] (.vstr "gemini") "p" ["hi"]
    (.success []) rfl (by simp) (by simp) (by decide)

/-- C8: for every transport or API-status failure of the Anthropic call
(with the api_key present so that the call is reached), the client returns
`None`, makes exactly one attempt (exactly one recorded prompt, no retry),
writes a diagnostic to stderr, and on a 401 status additionally prints the
API-key hint. -/
theorem anthropic_failure_single_attempt (cfg : List (String × YVal)) (prompt : String)
    (api : ApiOutcome) (hk : anthropic_key_present cfg = true) (hf : api.isFailure = true) :
    (call_anthropic_api cfg prompt api).2 = .ok none
    ∧ (call_anthropic_api cfg prompt api).1.apiPrompts = [prompt]
    ∧ (call_anthropic_api cfg prompt api).1.stderr ≠ []
    ∧ (∀ msg, api = .statusError 401 msg →
        hint401Msg ∈ (call_anthropic_api cfg prompt api).1.stderr) := by
  revert hk
  unfold anthropic_key_present
  cases hc : dictGetD cfg "anthropic" (.vmap []) <;> intro hk <;> simp at hk
  next pm =>
  cases api with
  | success content => exact absurd hf (by simp [ApiOutcome.isFailure])
  | statusError status msg =>
    refine ⟨by simp [call_anthropic_api, hc, hk], by simp [call_anthropic_api, hc, hk], ?_, ?_⟩
    · simp only [call_anthropic_api, hc, hk]
      intro hnil
      simp at hnil
      exact emit_ne_nil _ hnil.2.1
    · intro m hm
      injection hm with hs hm2
      subst hs
      subst hm2
      simp [call_anthropic_api, hc, hk, show emit hint401Msg = [hint401Msg] from rfl]
  | apiError msg =>
    refine ⟨by simp [call_anthropic_api, hc, hk], by simp [call_anthropic_api, hc, hk], ?_, ?_⟩
    · simp only [call_anthropic_api, hc, hk]
      intro hnil
      simp at hnil
      exact emit_ne_nil _ hnil.2
    · intro m hm
      exact absurd hm (by simp)
  | otherError msg =>
    refine ⟨by simp [call_anthropic_api, hc, hk], by simp [call_anthropic_api, hc, hk], ?_, ?_⟩
    · simp only [call_anthropic_api, hc, hk]
      intro hnil
      simp at hnil
      exact emit_ne_nil _ hnil.2
    · intro m hm
      exact absurd hm (by simp)

/-- C8 witness: a 401 status failure at the valid configuration returns
`None`, records exactly the one prompt, and prints the API-key hint. -/
theorem anthropic_failure_single_attempt_witness :
    (call_anthropic_api goodCfg "p" (.statusError 401 "Unauthorized")).2 = .ok none
    ∧ (call_anthropic_api goodCfg "p" (.statusError 401 "Unauthorized")).1.apiPrompts = ["p"]
    ∧ hint401Msg ∈ (call_anthropic_api goodCfg "p" (.statusError 401 "Unauthorized")).1.stderr := by
  obtain ⟨h1, h2, h3, h4⟩ :=
    anthropic_failure_single_attempt goodCfg "p" (.statusError 401 "Unauthorized") rfl rfl
  exact ⟨h1, h2, h4 "Unauthorized" rfl⟩

/-- C10: the claim states that every mapping `load_config` returns satisfies
the provider/api_key invariant.  No mapping is ever returned: `load_config`
raises `NameError` on its first statement for every input, so the invariant-
establishing validation (source lines 34-38) is unreachable.  This theorem
records the defect (first conjunct) and verifies the claim against the
validation logic itself (remaining conjuncts): whenever
`load_config_validate` — the embedding of those lines — succeeds, it returns
its input unchanged and that mapping satisfies the invariant: a non-empty
string `api_provider`, a mapping under that provider name, and a non-empty
`api_key` string in it that does not start with `YOUR_`. -/
theorem load_config_cannot_establish_invariant (fe : Bool) (p : Except String YVal)
    (cfg out : YVal) (hv : load_config_validate cfg = .ok out) :
    load_config fe p = .pyerror [] (.nameError "CONFIG")
    ∧ out = cfg ∧ configInvariantB cfg = true := by
  refine ⟨load_config_always_raises fe p, ?_⟩
  cases cfg with
  | vnull => simp [load_config_validate, pyGet] at hv
  | vbool b => simp [load_config_validate, pyGet] at hv
  | vint n => simp [load_config_validate, pyGet] at hv
  | vstr s => simp [load_config_validate, pyGet] at hv
  | vlist xs => simp [load_config_validate, pyGet] at hv
  | vmap m =>
    simp only [load_config_validate, pyGet] at hv
    cases hap : dictGet m "api_provider" with
    | none =>
      rw [hap] at hv
      simp [optTruthy] at hv
    | some apVal =>
      rw [hap] at hv
      cases apVal with
      | vnull => simp [optTruthy, pyTruthy] at hv
      | vbool b =>
        cases b with
        | false => simp [optTruthy, pyTruthy] at hv
        | true => simp [optTruthy, pyTruthy, pyGetKeyVal, pyGet, dictGet] at hv
      | vint n =>
        by_cases hn : n = 0
        · subst hn
          simp [optTruthy, pyTruthy] at hv
        · simp [optTruthy, pyTruthy, hn, pyGetKeyVal, pyGet, dictGet] at hv
      | vlist xs =>
        by_cases hx : xs.isEmpty
        · simp [optTruthy, pyTruthy, hx] at hv
        · simp [optTruthy, pyTruthy, hx, pyGetKeyVal] at hv
      | vmap m2 =>
        by_cases hx : m2.isEmpty
        · simp [optTruthy, pyTruthy, hx] at hv
        · simp [optTruthy, pyTruthy, hx, pyGetKeyVal] at hv
      | vstr pr =>
        by_cases hpr : pr = ""
        · subst hpr
          simp [optTruthy, pyTruthy] at hv
        · simp only [optTruthy, pyTruthy, hpr, pyGetKeyVal] at hv
          cases hblk : dictGet m pr with
          | none =>
            rw [hblk] at hv
            simp [pyGet, optTruthy, dictGet] at hv
          | some bv =>
            rw [hblk] at hv
            cases bv with
            | vnull => simp [pyGet, hpr] at hv
            | vbool b => simp [pyGet, hpr] at hv
            | vint n => simp [pyGet, hpr] at hv
            | vstr s => simp [pyGet, hpr] at hv
            | vlist xs => simp [pyGet, hpr] at hv
            | vmap pm =>
              simp only [pyGet, Option.getD] at hv
              cases hkey : dictGet pm "api_key" with
              | none =>
                rw [hkey] at hv
                simp [optTruthy] at hv
              | some kv =>
                rw [hkey] at hv
                cases kv with
                | vnull => simp [optTruthy, pyTruthy] at hv
                | vbool b => cases b <;> simp [optTruthy, pyTruthy, hpr] at hv
                | vint n =>
                  by_cases hn : n = 0
                  · subst hn
                    simp [optTruthy, pyTruthy] at hv
                  · simp [optTruthy, pyTruthy, hn, hpr] at hv
                | vlist xs =>
                  by_cases hx : xs.isEmpty <;> simp [optTruthy, pyTruthy, hx, hpr] at hv
                | vmap m3 =>
                  by_cases hx : m3.isEmpty <;> simp [optTruthy, pyTruthy, hx, hpr] at hv
                | vstr k =>
                  by_cases hk0 : k = ""
                  · subst hk0
                    simp [optTruthy, pyTruthy] at hv
                  · by_cases hks : pyStartsWith k "YOUR_"
                    · simp [optTruthy, pyTruthy, hk0, hks, hpr] at hv
                    · simp [optTruthy, pyTruthy, hk0, hks, hpr] at hv
                      refine ⟨?_, ?_⟩
                      · exact hv.symm
                      · simp [configInvariantB, hap, hblk, hkey, hpr, hk0, hks]

/-- C10 witness: the validation succeeds on the concrete valid configuration
and that configuration satisfies the invariant, while `load_config` still
raises for it. -/
theorem load_config_cannot_establish_invariant_witness :
    load_config true (.ok (.vmap goodCfg)) = .pyerror [] (.nameError "CONFIG")
    ∧ YVal.vmap goodCfg = YVal.vmap goodCfg
    ∧ configInvariantB (.vmap goodCfg) = true :=
  load_config_cannot_establish_invariant true (.ok (.vmap goodCfg))
    (.vmap goodCfg) (.vmap goodCfg) rfl
